import Mathlib

set_option linter.unusedVariables false

/-! Shallow embedding of `src/command.rs` and `src/video_reader.rs` of the
detection_app repository.

The OpenCV backend (`VideoCapture`) and the two mpsc channels are external
effects; they are modelled as explicit oracle inputs threaded through the
embedded functions: each backend call the Rust code makes corresponds to one
field of an oracle record, and the embedded function combines those results
exactly the way the Rust control flow does.  Machine floats (`f64`) in this
code only flow through division, comparison with zero, a default value and a
truncating cast, so they are modelled as rationals with explicit saturating
truncation where the Rust code writes an `as` cast.  Fallible Rust calls
returning `Result` are modelled as `Except` / `Option`; a Rust `panic!`
(from `.expect`) is modelled by an explicit `panic` constructor of the
result type. -/

/-- Rust enum `ControlCommand` (src/command.rs, lines 3-7): `Play`, `Pause`,
`Seek(f64)`. -/
inductive ControlCommand where
  | Play : ControlCommand
  | Pause : ControlCommand
  | Seek : Rat → ControlCommand
deriving DecidableEq

/-- Rust enum `VideoReaderError` (src/video_reader.rs, lines 11-14): a single
variant `OpenCV(String)`. -/
inductive VideoReaderError where
  | OpenCV : String → VideoReaderError
deriving DecidableEq

/-- Model of `egui::ColorImage` as built by `ColorImage::from_rgb(size, data)`
in `read_next_frame`: a size pair and the RGB byte buffer. -/
structure ColorImage where
  width : Nat
  height : Nat
  data : List Nat
deriving DecidableEq

/-- Result type distinguishing a returned value from a Rust `panic!`
(the `.expect` call in `read_next_frame` can panic). -/
inductive PanicOr (α : Type) where
  | panic : String → PanicOr α
  | ret : α → PanicOr α
deriving DecidableEq

/-- Results of the `VideoCapture::get` property reads the code performs
(`CAP_PROP_FPS`, `CAP_PROP_FRAME_WIDTH`, `CAP_PROP_FRAME_HEIGHT`,
`CAP_PROP_FRAME_COUNT`); `none` models the backend returning `Err`, which the
Rust code handles with `unwrap_or`. -/
structure CapProps where
  fps : Option Rat
  frameWidth : Option Rat
  frameHeight : Option Rat
  frameCount : Option Rat
deriving DecidableEq

/-- One observation of the backend during `FrameDecoder::new`: either
`VideoCapture::from_file` returns `Err(e)`, or it succeeds but
`cap.is_opened().unwrap_or(false)` is not `true` (covering both `Err` and
`Ok(false)`), or the capture opens and carries the given cached properties. -/
inductive OpenOutcome where
  | fromFileErr : String → OpenOutcome
  | notOpened : OpenOutcome
  | opened : CapProps → OpenOutcome
deriving DecidableEq

/-- `FrameDecoder::new` (src/video_reader.rs, lines 24-38): propagates the
`from_file` error with the message prefix `Failed to open video file: `,
rejects a capture whose `is_opened()` does not report `true` with the same
prefix and the path string, and otherwise returns the opened capture. -/
def FrameDecoder_new (path_str : String) (oo : OpenOutcome) :
    Except VideoReaderError CapProps :=
  match oo with
  | .fromFileErr e =>
      .error (.OpenCV ("Failed to open video file: " ++ e))
  | .notOpened =>
      .error (.OpenCV ("Failed to open video file: " ++ path_str))
  | .opened props => .ok props

/-- `FrameDecoder::get_fps` (src/video_reader.rs, lines 41-43):
`self.cap.get(CAP_PROP_FPS).unwrap_or(30.0)`. -/
def get_fps (props : CapProps) : Rat :=
  props.fps.getD 30

/-- Saturating truncation of an `f64` to `u32`, the Rust expression
`x as u32`: truncation toward zero, negatives clamp to 0, large values to the
maximum. -/
def f64_as_u32 (x : Rat) : Nat :=
  min x.floor.toNat (2 ^ 32 - 1)

/-- Saturating truncation of an `f64` to `u64`, the Rust expression
`x as u64`. -/
def f64_as_u64 (x : Rat) : Nat :=
  min x.floor.toNat (2 ^ 64 - 1)

/-- `FrameDecoder::width` (src/video_reader.rs, lines 46-48). -/
def fd_width (props : CapProps) : Nat :=
  f64_as_u32 (props.frameWidth.getD 0)

/-- `FrameDecoder::height` (src/video_reader.rs, lines 51-53). -/
def fd_height (props : CapProps) : Nat :=
  f64_as_u32 (props.frameHeight.getD 0)

/-- `FrameDecoder::duration` (src/video_reader.rs, lines 56-64):
`frame_count / fps` when `fps > 0.0`, else `0.0`, where `frame_count` is
`cap.get(CAP_PROP_FRAME_COUNT).unwrap_or(0.0)` and `fps` is `get_fps()`. -/
def fd_duration (props : CapProps) : Rat :=
  let frame_count := props.frameCount.getD 0
  let fps := get_fps props
  if fps > 0 then frame_count / fps else 0

deriving instance DecidableEq for Except

/-- Backend observations for one call of `FrameDecoder::read_next_frame`:
`readOk` is the result of `cap.read(&mut frame)` (`none` models `Err`),
`frameEmpty` the result of `frame.empty()`, `posMsec` the result of
`cap.get(CAP_PROP_POS_MSEC)` (`none` models `Err`, handled by `unwrap_or`),
`cvtColor` the result of `imgproc::cvt_color`, `size` the result of
`rgb_frame.size()` (`none` models `Err`, which the code `.expect`s), and
`pixels` the converted frame's byte buffer read through the raw slice. -/
structure ReadEffects where
  readOk : Option Bool
  frameEmpty : Bool
  posMsec : Option Rat
  cvtColor : Except String Unit
  size : Option (Nat × Nat)
  pixels : List Nat
deriving DecidableEq

/-- `FrameDecoder::read_next_frame` (src/video_reader.rs, lines 70-107).
The Rust match arm `Ok(true) if !frame.empty()` handles a successful
non-empty read: it reads the timestamp with fallback 0.0, converts BGR to
RGB (an `Err` here becomes `Err(OpenCV("Failed to convert frame to RGB: ..."))`),
queries the converted frame's size with `.expect("Failed to get frame size")`
(a panic on `Err`), and builds the `ColorImage` from the raw slice of
`width * height * 3` bytes.  Every other read outcome — `Err`, `Ok(false)`,
or `Ok(true)` with an empty frame — falls to the catch-all arm `Ok(None)`. -/
def read_next_frame (eff : ReadEffects) :
    PanicOr (Except VideoReaderError (Option (ColorImage × Rat))) :=
  match eff.readOk with
  | some true =>
    if eff.frameEmpty then
      .ret (.ok none)
    else
      let timestamp_ms := eff.posMsec.getD 0
      match eff.cvtColor with
      | .error e =>
          .ret (.error (.OpenCV ("Failed to convert frame to RGB: " ++ e)))
      | .ok _ =>
        match eff.size with
        | none => .panic "Failed to get frame size"
        | some (w, h) =>
            .ret (.ok (some (⟨w, h, eff.pixels.take (w * h * 3)⟩, timestamp_ms)))
  | _ => .ret (.ok none)

/-- One cycle's environment for the worker loop spawned by `VideoReader::new`
(src/video_reader.rs, lines 142-186): `arrivals` are the control commands the
UI thread has sent since the previous cycle (appended to whatever is still
queued in the channel), `connected` whether the control sender is still alive
(`try_recv` on an empty queue returns `Empty` when it is and `Disconnected`
when it is not), `seekOk` the result of `cap.set(CAP_PROP_POS_MSEC, ms)` if a
`Seek` is processed this cycle, `readEff` the backend observations for
`read_next_frame` if it is called this cycle, and `sendOk` whether
`image_sender.send` succeeds (the frame receiver is still alive). -/
structure CycleEnv where
  arrivals : List ControlCommand
  connected : Bool
  seekOk : Bool
  readEff : ReadEffects
  sendOk : Bool
deriving DecidableEq

/-- The worker's mutable state between cycles: the `is_paused` flag
(initialised to `true` at src/video_reader.rs line 143) and the commands
still queued in the control channel. -/
structure WorkerState where
  is_paused : Bool
  inbox : List ControlCommand
deriving DecidableEq

/-- Observable events of one worker cycle, in order: a frame sent on the
frame channel (`image_sender.send(Ok(...))`), an error sent on the frame
channel (`image_sender.send(Err(...))`), the `eprintln!` on a failed seek,
and the `thread::sleep` at the bottom of the loop body. -/
inductive Event where
  | sentFrame : ColorImage → Rat → Event
  | sentErr : VideoReaderError → Event
  | logSeekFail : Rat → Event
  | slept : Nat → Event
deriving DecidableEq

/-- Result of the control-handling `match control_receiver.try_recv()`
(src/video_reader.rs, lines 147-160): either the loop proceeds with an
updated paused flag and remaining queue, or the channel was disconnected and
the loop breaks. -/
inductive CtrlRes where
  | proceed : Bool → List ControlCommand → CtrlRes
  | disconnected : CtrlRes
deriving DecidableEq

/-- The `match control_receiver.try_recv()` arm of the loop body
(src/video_reader.rs, lines 147-160): `try_recv` pops at most the oldest
queued command.  `Play` clears the paused flag, `Pause` sets it, `Seek(ms)`
calls `cap.set` and logs on failure, `Disconnected` breaks the loop, `Empty`
does nothing. -/
def ctrlStep (is_paused : Bool) (queue : List ControlCommand)
    (connected seekOk : Bool) : List Event × CtrlRes :=
  match queue with
  | .Play :: rest => ([], .proceed false rest)
  | .Pause :: rest => ([], .proceed true rest)
  | .Seek ms :: rest =>
      ((if seekOk then [] else [.logSeekFail ms]), .proceed is_paused rest)
  | [] =>
      if connected then ([], .proceed is_paused []) else ([], .disconnected)

/-- Result of the decode-and-send part of the loop body plus the final sleep:
the cycle either falls through to the next iteration (`cont`), breaks out of
the loop (`stop`), or panics inside `read_next_frame` (`panicked`). -/
inductive StepRes where
  | cont : StepRes
  | stop : StepRes
  | panicked : String → StepRes
deriving DecidableEq

/-- The `if !is_paused { ... }` block (src/video_reader.rs, lines 162-181)
followed by the `thread::sleep` (line 184).  When paused the cycle only
sleeps.  When playing: a decoded frame is sent, and a send failure breaks
the loop (before the sleep); `Ok(None)` (end of video) breaks; `Err` sends
the error best-effort and breaks; a panic in `read_next_frame` propagates. -/
def decodeStep (delay : Nat) (is_paused : Bool) (eff : ReadEffects)
    (sendOk : Bool) : List Event × StepRes :=
  if is_paused then
    ([.slept delay], .cont)
  else
    match read_next_frame eff with
    | .panic m => ([], .panicked m)
    | .ret (.ok (some (color_image, timestamp_ms))) =>
        if sendOk then
          ([.sentFrame color_image timestamp_ms, .slept delay], .cont)
        else
          ([], .stop)
    | .ret (.ok none) => ([], .stop)
    | .ret (.error err) => ([.sentErr err], .stop)

/-- Outcome of one full cycle of the worker loop. -/
inductive CycleOutcome where
  | next : WorkerState → CycleOutcome
  | stopped : CycleOutcome
  | panicked : String → CycleOutcome
deriving DecidableEq

/-- One full iteration of the worker loop body (src/video_reader.rs, lines
145-185): the single `try_recv` match, then the decode block and sleep. -/
def workerCycle (delay : Nat) (st : WorkerState) (env : CycleEnv) :
    List Event × CycleOutcome :=
  match ctrlStep st.is_paused (st.inbox ++ env.arrivals) env.connected env.seekOk with
  | (evs, .disconnected) => (evs, .stopped)
  | (evs, .proceed p rest) =>
    match decodeStep delay p env.readEff env.sendOk with
    | (evs2, .cont) => (evs ++ evs2, .next ⟨p, rest⟩)
    | (evs2, .stop) => (evs ++ evs2, .stopped)
    | (evs2, .panicked m) => (evs ++ evs2, .panicked m)

/-- The worker loop run over a finite list of per-cycle environments: the
trace of observable events.  A cycle that breaks (or panics) consumes no
further environments. -/
def runWorker (delay : Nat) (st : WorkerState) : List CycleEnv → List Event
  | [] => []
  | env :: rest =>
    match workerCycle delay st env with
    | (evs, .next st2) => evs ++ runWorker delay st2 rest
    | (evs, _) => evs

/-- The value `VideoReader::new` returns on success (src/video_reader.rs,
lines 188-193), with the spawned thread's observable trace standing in for
the thread handle. -/
structure VideoReaderHandle where
  width : Nat
  height : Nat
  duration : Rat
  events : List Event
deriving DecidableEq

/-- `VideoReader::new` (src/video_reader.rs, lines 129-194): opens the
decoder (propagating an open error synchronously, before any thread is
spawned), reads fps/width/height/duration once, computes
`delay_ms = if fps > 0.0 { (1000.0 / fps) as u64 } else { 33 }` (line 140),
and spawns the worker loop with `is_paused = true` and an empty control
queue. -/
def VideoReader_new (path_str : String) (oo : OpenOutcome)
    (envs : List CycleEnv) : Except VideoReaderError VideoReaderHandle :=
  match FrameDecoder_new path_str oo with
  | .error e => .error e
  | .ok props =>
    let fps := get_fps props
    let width := fd_width props
    let height := fd_height props
    let duration := fd_duration props
    let delay_ms := if fps > 0 then f64_as_u64 (1000 / fps) else 33
    .ok ⟨width, height, duration, runWorker delay_ms ⟨true, []⟩ envs⟩

/-- The timestamped frames delivered on the frame channel, in delivery
order, extracted from a worker trace. -/
def framesOf (evs : List Event) : List (ColorImage × Rat) :=
  evs.filterMap fun e =>
    match e with
    | .sentFrame img ts => some (img, ts)
    | _ => none

/-- The delivered frames' timestamps, in delivery order. -/
def frameTimestamps (evs : List Event) : List Rat :=
  (framesOf evs).map Prod.snd

/-- The worker trace of a `VideoReader::new` result: empty when construction
failed (no thread was spawned). -/
def eventsOf (r : Except VideoReaderError VideoReaderHandle) : List Event :=
  match r with
  | .ok h => h.events
  | .error _ => []

/-- The metadata duration of a `VideoReader::new` result (0 when
construction failed). -/
def durationOf (r : Except VideoReaderError VideoReaderHandle) : Rat :=
  match r with
  | .ok h => h.duration
  | .error _ => 0

/-- The timestamp `read_next_frame` would attach to a frame decoded under
the given effects: `cap.get(CAP_PROP_POS_MSEC).unwrap_or(0.0)`. -/
def envTimestamp (env : CycleEnv) : Rat :=
  env.readEff.posMsec.getD 0

/-- How one popped control command updates the paused flag
(src/video_reader.rs, lines 148-154): `Play` clears it, `Pause` sets it,
`Seek` leaves it unchanged. -/
def applyCmd (c : ControlCommand) (is_paused : Bool) : Bool :=
  match c with
  | .Play => false
  | .Pause => true
  | .Seek _ => is_paused

/-- The events emitted while handling one popped control command: only a
failed `Seek` logs. -/
def cmdEvents (c : ControlCommand) (seekOk : Bool) : List Event :=
  match c with
  | .Seek ms => if seekOk then [] else [.logSeekFail ms]
  | _ => []

/-- Sample backend observation: a successful 1-by-1-pixel frame read
reporting the given timestamp. -/
def effFrameAt (ts : Rat) : ReadEffects :=
  ⟨some true, false, some ts, .ok (), some (1, 1), [10, 20, 30]⟩

/-- Sample backend observation: `cap.read` returns `Ok(false)`
(end of stream). -/
def effEnd : ReadEffects :=
  ⟨some false, false, none, .ok (), none, []⟩

/-- Sample cycle environment: both channel peers alive, seek succeeding,
with the given arrivals and read observation. -/
def envWith (arr : List ControlCommand) (eff : ReadEffects) : CycleEnv :=
  ⟨arr, true, true, eff, true⟩

theorem framesOf_append (a b : List Event) :
    framesOf (a ++ b) = framesOf a ++ framesOf b :=
  List.filterMap_append a b _

theorem frameTimestamps_append (a b : List Event) :
    frameTimestamps (a ++ b) = frameTimestamps a ++ frameTimestamps b := by
  simp [frameTimestamps, framesOf_append]

/-- C2 (counterexample): a source whose fps property reads back as 0 yields
a metadata frame rate of 0, not the claimed fallback of 30. -/
theorem c2_counterexample :
    get_fps ⟨some 0, none, none, none⟩ = 0
    ∧ ¬ get_fps ⟨some 0, none, none, none⟩ = 30 := by
  exact ⟨rfl, by decide⟩

/-- C2 (amended): the metadata frame rate is 30 exactly when the backend's
fps property read fails (`Err`, handled by `unwrap_or(30.0)`); whenever the
source reports a value — including 0 — the metadata frame rate equals the
reported value unchanged. -/
theorem c2_fps_fallback (props : CapProps) :
    (props.fps = none → get_fps props = 30)
    ∧ ∀ q : Rat, props.fps = some q → get_fps props = q := by
  constructor
  · intro h; simp [get_fps, h]
  · intro q h; simp [get_fps, h]

/-- C8: for every successfully opened source, the metadata duration equals
the reported frame count divided by the metadata frame rate when that rate
is positive, and 0 otherwise. -/
theorem c8_duration_formula (path_str : String) (props : CapProps)
    (envs : List CycleEnv) :
    (get_fps props > 0 →
      durationOf (VideoReader_new path_str (.opened props) envs)
        = props.frameCount.getD 0 / get_fps props)
    ∧ (¬ get_fps props > 0 →
      durationOf (VideoReader_new path_str (.opened props) envs) = 0) := by
  have h : durationOf (VideoReader_new path_str (.opened props) envs)
      = fd_duration props := rfl
  constructor <;> intro hf <;> simp [h, fd_duration, hf]

/-- C7: `read_next_frame` yields `Err` exactly when the raw read succeeded
with a non-empty frame and the BGR-to-RGB conversion failed; end-of-stream
(`Ok(false)`), a failed read (`Err`), and an empty frame all collapse to
`Ok(None)` indistinguishably. -/
theorem c7_read_error_cases (eff : ReadEffects) :
    ((∃ e, read_next_frame eff = .ret (.error e)) ↔
      eff.readOk = some true ∧ eff.frameEmpty = false
        ∧ ∃ msg, eff.cvtColor = .error msg)
    ∧ (eff.readOk = none → read_next_frame eff = .ret (.ok none))
    ∧ (eff.readOk = some false → read_next_frame eff = .ret (.ok none))
    ∧ (eff.readOk = some true → eff.frameEmpty = true →
        read_next_frame eff = .ret (.ok none)) := by
  obtain ⟨ro, fe, pm, cv, sz, px⟩ := eff
  rcases ro with _ | b
  · simp [read_next_frame]
  · rcases b <;> rcases fe <;> rcases cv with e | u
    · simp [read_next_frame]
    · simp [read_next_frame]
    · simp [read_next_frame]
    · simp [read_next_frame]
    · simp [read_next_frame]
    · rcases sz with _ | ⟨w, h⟩ <;> simp [read_next_frame]
    · simp [read_next_frame]
    · simp [read_next_frame]

/-- C10: a concrete execution in which the raw read succeeds with a
non-empty frame, the colour conversion succeeds, and the size query on the
converted frame fails: `read_next_frame` panics through
`.expect("Failed to get frame size")` instead of returning
`Err(DecodeFailure)`. -/
theorem c10_size_failure_panics :
    read_next_frame ⟨some true, false, some 40, .ok (), none, [10, 20, 30]⟩
      = .panic "Failed to get frame size" := rfl

/-- C1 (counterexample): with `Play` and `Pause` both pending at the start
of a cycle, the cycle pops only `Play`, decides to decode (a frame is sent on
the frame channel), and leaves `Pause` still queued — the inbox is not
drained before the decode decision, so the claim's Pause-and-Seek example
fails the same way. -/
theorem c1_counterexample :
    workerCycle 33 ⟨true, []⟩ (envWith [.Play, .Pause] (effFrameAt 0))
      = ([.sentFrame ⟨1, 1, [10, 20, 30]⟩ 0, .slept 33],
         .next ⟨false, [.Pause]⟩) := rfl

/-- C1 (amended): each cycle pops at most one pending control command — the
oldest — and applies exactly it before the decode decision; every other
queued command stays in the inbox for a later cycle. -/
theorem c1_one_command_per_cycle (delay : Nat) (st : WorkerState)
    (env : CycleEnv) (c : ControlCommand) (rest : List ControlCommand)
    (hq : st.inbox ++ env.arrivals = c :: rest) :
    ctrlStep st.is_paused (st.inbox ++ env.arrivals) env.connected env.seekOk
      = (cmdEvents c env.seekOk, .proceed (applyCmd c st.is_paused) rest) := by
  rw [hq]
  cases c <;> rfl

/-- C1 (witness for the amended theorem): with `Pause` then `Seek 5` queued,
the cycle applies only `Pause` and leaves `Seek 5` pending. -/
theorem c1_one_command_per_cycle_witness :
    ctrlStep true [.Pause, .Seek 5] true true
      = ([], .proceed true [.Seek 5]) :=
  c1_one_command_per_cycle 33 ⟨true, []⟩ (envWith [.Pause, .Seek 5] effEnd)
    .Pause [.Seek 5] rfl

/-- C5: when the command popped this cycle is `Seek ms`, the control phase
always proceeds (it never breaks the loop), the paused flag is unchanged
(playback continues from wherever the stream ended up), and a failed
reposition only logs; the cycle can only stop for reasons of the decode
phase, never because of the seek. -/
theorem c5_seek_never_terminates (delay : Nat) (st : WorkerState)
    (env : CycleEnv) (ms : Rat) (rest : List ControlCommand)
    (hq : st.inbox ++ env.arrivals = ControlCommand.Seek ms :: rest) :
    ((workerCycle delay st env).2 = CycleOutcome.stopped ↔
      (decodeStep delay st.is_paused env.readEff env.sendOk).2 = StepRes.stop)
    ∧ (env.seekOk = false →
        Event.logSeekFail ms ∈ (workerCycle delay st env).1)
    ∧ (st.is_paused = true →
        (workerCycle delay st env).2 = .next ⟨true, rest⟩) := by
  have hc : ctrlStep st.is_paused (st.inbox ++ env.arrivals)
      env.connected env.seekOk
      = ((if env.seekOk then [] else [Event.logSeekFail ms]),
         .proceed st.is_paused rest) := by
    rw [hq]; rfl
  refine ⟨?_, ?_, ?_⟩
  · rcases hd : decodeStep delay st.is_paused env.readEff env.sendOk with ⟨evs2, r⟩
    cases r <;> simp [workerCycle, hc, hd]
  · intro hs
    rcases hd : decodeStep delay st.is_paused env.readEff env.sendOk with ⟨evs2, r⟩
    cases r <;> simp only [workerCycle, hc, hd] <;> simp [hs]
  · intro hp
    rw [hp] at hc
    have hd : decodeStep delay true env.readEff env.sendOk
        = ([.slept delay], .cont) := rfl
    simp [workerCycle, hp, hc, hd]

/-- C5 (witness): a paused worker pops `Seek 7` while the reposition fails:
the failure is logged and the cycle continues with the worker still
paused. -/
theorem c5_seek_never_terminates_witness :
    ((workerCycle 33 ⟨true, []⟩ ⟨[.Seek 7], true, false, effEnd, true⟩).2
        = CycleOutcome.stopped ↔
      (decodeStep 33 true effEnd true).2 = StepRes.stop)
    ∧ (false = false →
        Event.logSeekFail 7
          ∈ (workerCycle 33 ⟨true, []⟩ ⟨[.Seek 7], true, false, effEnd, true⟩).1)
    ∧ (true = true →
        (workerCycle 33 ⟨true, []⟩ ⟨[.Seek 7], true, false, effEnd, true⟩).2
          = .next ⟨true, []⟩) :=
  c5_seek_never_terminates 33 ⟨true, []⟩ ⟨[.Seek 7], true, false, effEnd, true⟩
    7 [] rfl

theorem runWorker_cons (delay : Nat) (st : WorkerState) (env : CycleEnv)
    (rest : List CycleEnv) :
    runWorker delay st (env :: rest)
      = (workerCycle delay st env).1 ++
        (match (workerCycle delay st env).2 with
          | .next st2 => runWorker delay st2 rest
          | _ => []) := by
  rcases h : workerCycle delay st env with ⟨evs, out⟩
  cases out <;> simp [runWorker, h]

theorem workerCycle_paused (delay : Nat) (pend : List ControlCommand)
    (env : CycleEnv)
    (hP : ControlCommand.Play ∉ pend ++ env.arrivals) :
    framesOf (workerCycle delay ⟨true, pend⟩ env).1 = []
    ∧ ((workerCycle delay ⟨true, pend⟩ env).2 = .stopped
        ∨ ∃ rest, (workerCycle delay ⟨true, pend⟩ env).2 = .next ⟨true, rest⟩
            ∧ ControlCommand.Play ∉ rest) := by
  have hd : decodeStep delay true env.readEff env.sendOk
      = ([.slept delay], .cont) := rfl
  rcases hq : pend ++ env.arrivals with _ | ⟨c, q⟩
  · cases hcon : env.connected
    · constructor
      · simp [workerCycle, ctrlStep, hq, hcon, framesOf]
      · left; simp [workerCycle, ctrlStep, hq, hcon]
    · constructor
      · simp [workerCycle, ctrlStep, hq, hcon, hd, framesOf]
      · right
        exact ⟨[], by simp [workerCycle, ctrlStep, hq, hcon, hd],
          List.not_mem_nil _⟩
  · have hnP : c ≠ ControlCommand.Play ∧ ControlCommand.Play ∉ q := by
      constructor
      · intro h
        exact hP (by rw [hq, h]; exact List.mem_cons_self _ _)
      · intro h
        exact hP (by rw [hq]; exact List.mem_cons_of_mem _ h)
    cases c with
    | Play => exact absurd rfl hnP.1
    | Pause =>
        constructor
        · simp [workerCycle, ctrlStep, hq, hd, framesOf]
        · right
          exact ⟨q, by simp [workerCycle, ctrlStep, hq, hd], hnP.2⟩
    | Seek ms =>
        constructor
        · cases hsk : env.seekOk <;>
            simp [workerCycle, ctrlStep, hq, hd, hsk, framesOf]
        · right
          refine ⟨q, ?_, hnP.2⟩
          cases hsk : env.seekOk <;>
            simp [workerCycle, ctrlStep, hq, hd, hsk]

theorem run_paused_no_frames (delay : Nat) (pend : List ControlCommand)
    (envs : List CycleEnv)
    (h1 : ControlCommand.Play ∉ pend)
    (h2 : ∀ env ∈ envs, ControlCommand.Play ∉ env.arrivals) :
    framesOf (runWorker delay ⟨true, pend⟩ envs) = [] := by
  induction envs generalizing pend with
  | nil => rfl
  | cons env rest ih =>
    have hP : ControlCommand.Play ∉ pend ++ env.arrivals := by
      rw [List.mem_append]
      rintro (h | h)
      · exact h1 h
      · exact h2 env (List.mem_cons_self _ _) h
    obtain ⟨hf, hout⟩ := workerCycle_paused delay pend env hP
    rcases hout with hstop | ⟨restq, hnext, hnp⟩
    · simp only [runWorker_cons, framesOf_append, hstop, hf]
      rfl
    · simp only [runWorker_cons, framesOf_append, hnext, hf]
      rw [List.nil_append]
      exact ih restq hnp (fun e he => h2 e (List.mem_cons_of_mem _ he))

/-- C3: from construction until a `Play` command is received, the worker is
paused (the flag starts `true` and nothing but `Play` clears it) and it
delivers no frames on the frame channel: in any run whose control traffic
contains no `Play` — for example one that sends only `Pause` — the set of
delivered frames is empty. -/
theorem c3_no_autoplay (path_str : String) (oo : OpenOutcome)
    (envs : List CycleEnv)
    (h2 : ∀ env ∈ envs, ControlCommand.Play ∉ env.arrivals) :
    framesOf (eventsOf (VideoReader_new path_str oo envs)) = [] := by
  cases oo with
  | fromFileErr m => rfl
  | notOpened => rfl
  | opened props =>
      exact run_paused_no_frames _ [] envs (List.not_mem_nil _) h2

/-- C3 (witness): a worker opened on a 10-fps source that receives `Pause`
and then `Seek 100`, while the backend has frames available, delivers zero
frames. -/
theorem c3_no_autoplay_witness :
    framesOf (eventsOf (VideoReader_new "clip.mp4"
      (.opened ⟨some 10, some 640, some 480, some 50⟩)
      [envWith [.Pause] (effFrameAt 0), envWith [.Seek 100] (effFrameAt 0)]))
      = [] :=
  c3_no_autoplay "clip.mp4" (.opened ⟨some 10, some 640, some 480, some 50⟩)
    [envWith [.Pause] (effFrameAt 0), envWith [.Seek 100] (effFrameAt 0)]
    (by decide)

/-- C4 (counterexample): a genuine run of the worker — `Play`, one frame at
100 ms, then `Seek 0` repositioning the stream backwards, then one frame at
33 ms — delivers timestamps `[100, 33]`, which are not non-decreasing. -/
theorem c4_counterexample :
    frameTimestamps (runWorker 33 ⟨true, []⟩
      [envWith [.Play] (effFrameAt 100), envWith [.Seek 0] (effFrameAt 33)])
      = [100, 33]
    ∧ ¬ List.Pairwise (fun a b : Rat => a ≤ b)
        (frameTimestamps (runWorker 33 ⟨true, []⟩
          [envWith [.Play] (effFrameAt 100), envWith [.Seek 0] (effFrameAt 33)])) := by
  have h1 : frameTimestamps (runWorker 33 ⟨true, []⟩
      [envWith [.Play] (effFrameAt 100), envWith [.Seek 0] (effFrameAt 33)])
      = [100, 33] := rfl
  refine ⟨h1, ?_⟩
  rw [h1]
  decide

theorem ctrlStep_no_frames (p : Bool) (q : List ControlCommand)
    (c s : Bool) :
    framesOf (ctrlStep p q c s).1 = [] := by
  rcases q with _ | ⟨cmd, rest⟩
  · cases c <;> rfl
  · cases cmd with
    | Play => rfl
    | Pause => rfl
    | Seek ms => cases s <;> rfl

theorem decodeStep_frames (delay : Nat) (p : Bool) (eff : ReadEffects)
    (sendOk : Bool) :
    frameTimestamps (decodeStep delay p eff sendOk).1 = []
    ∨ frameTimestamps (decodeStep delay p eff sendOk).1
        = [eff.posMsec.getD 0] := by
  cases p
  · obtain ⟨ro, fe, pm, cv, sz, px⟩ := eff
    rcases ro with _ | b
    · left; rfl
    · cases b
      · left; rfl
      · cases fe
        · rcases cv with e | u
          · left; rfl
          · rcases sz with _ | ⟨w, h⟩
            · left; rfl
            · cases sendOk
              · left; rfl
              · right; rfl
        · left; rfl
  · left; rfl

theorem workerCycle_frames (delay : Nat) (st : WorkerState) (env : CycleEnv) :
    frameTimestamps (workerCycle delay st env).1 = []
    ∨ frameTimestamps (workerCycle delay st env).1 = [envTimestamp env] := by
  rcases hc : ctrlStep st.is_paused (st.inbox ++ env.arrivals)
      env.connected env.seekOk with ⟨evs, cr⟩
  have hevs : frameTimestamps evs = [] := by
    have hn := ctrlStep_no_frames st.is_paused (st.inbox ++ env.arrivals)
      env.connected env.seekOk
    rw [hc] at hn
    simp [frameTimestamps, hn]
  cases cr with
  | disconnected =>
      left
      simp [workerCycle, hc, hevs]
  | proceed p rest =>
      rcases hdp : decodeStep delay p env.readEff env.sendOk with ⟨evs2, r⟩
      have hf2 := decodeStep_frames delay p env.readEff env.sendOk
      rw [hdp] at hf2
      have hw : frameTimestamps (workerCycle delay st env).1
          = frameTimestamps evs ++ frameTimestamps evs2 := by
        cases r <;> simp [workerCycle, hc, hdp, frameTimestamps_append]
      rw [hw, hevs, List.nil_append]
      exact hf2

theorem frameTimestamps_sublist (delay : Nat) (st : WorkerState)
    (envs : List CycleEnv) :
    (frameTimestamps (runWorker delay st envs)).Sublist
      (envs.map envTimestamp) := by
  induction envs generalizing st with
  | nil => simp [runWorker, frameTimestamps, framesOf]
  | cons env rest ih =>
    rw [runWorker_cons, frameTimestamps_append]
    rcases ho : (workerCycle delay st env).2 with st2 | _ | m
    · simp only [ho, List.map_cons]
      rcases workerCycle_frames delay st env with h1 | h1
      · rw [h1, List.nil_append]
        exact (ih st2).cons _
      · rw [h1, List.singleton_append]
        exact (ih st2).cons₂ _
    · simp only [ho, List.map_cons]
      rcases workerCycle_frames delay st env with h1 | h1
      · rw [h1]
        exact List.nil_sublist _
      · rw [h1]
        simp only [List.append_nil, frameTimestamps, framesOf,
          List.filterMap_nil, List.map_nil]
        exact (List.nil_sublist _).cons₂ _
    · simp only [ho, List.map_cons]
      rcases workerCycle_frames delay st env with h1 | h1
      · rw [h1]
        exact List.nil_sublist _
      · rw [h1]
        simp only [List.append_nil, frameTimestamps, framesOf,
          List.filterMap_nil, List.map_nil]
        exact (List.nil_sublist _).cons₂ _

/-- C4 (amended): the worker delivers frames in decode order without
reordering, so delivered timestamps are non-decreasing whenever the
decoder's successively reported read timestamps are non-decreasing across
the run; a backward `Seek` (or a non-monotone source) can break the
unconditional form of the claim. -/
theorem c4_monotone_if_source_monotone (delay : Nat) (st : WorkerState)
    (envs : List CycleEnv)
    (h : (envs.map envTimestamp).Pairwise (fun a b => a ≤ b)) :
    (frameTimestamps (runWorker delay st envs)).Pairwise
      (fun a b => a ≤ b) :=
  h.sublist (frameTimestamps_sublist delay st envs)

/-- C4 (witness for the amended theorem): a playing run over two frames
with timestamps 10 then 20 delivers them in non-decreasing order. -/
theorem c4_monotone_witness :
    (frameTimestamps (runWorker 33 ⟨true, []⟩
      [envWith [.Play] (effFrameAt 10), envWith [] (effFrameAt 20)])).Pairwise
      (fun a b : Rat => a ≤ b) :=
  c4_monotone_if_source_monotone 33 ⟨true, []⟩
    [envWith [.Play] (effFrameAt 10), envWith [] (effFrameAt 20)] (by decide)

/-- C6: when the source cannot be opened — `VideoCapture::from_file` fails,
or the opened handle reports itself not ready (covering missing and empty
files) — `VideoReader::new` returns the very error `FrameDecoder::new`
produced, synchronously, and the worker trace is empty whatever the
environment would have offered: no thread is spawned, so no frames or
errors are ever delivered on the frame channel. -/
theorem c6_open_failure_synchronous (path_str : String) (oo : OpenOutcome)
    (envs : List CycleEnv)
    (h : ∀ props, oo ≠ OpenOutcome.opened props) :
    (∃ e, FrameDecoder_new path_str oo = .error e
        ∧ VideoReader_new path_str oo envs = .error e)
    ∧ eventsOf (VideoReader_new path_str oo envs) = [] := by
  cases oo with
  | fromFileErr m => exact ⟨⟨_, rfl, rfl⟩, rfl⟩
  | notOpened => exact ⟨⟨_, rfl, rfl⟩, rfl⟩
  | opened props => exact absurd rfl (h props)

/-- C6 (witness): a capture that opens but reports itself not ready, with a
frame-producing environment available, still yields the synchronous error
and an empty trace. -/
theorem c6_open_failure_witness :
    (∃ e, FrameDecoder_new "empty.mp4" .notOpened = .error e
        ∧ VideoReader_new "empty.mp4" .notOpened
            [envWith [.Play] (effFrameAt 0)] = .error e)
    ∧ eventsOf (VideoReader_new "empty.mp4" .notOpened
        [envWith [.Play] (effFrameAt 0)]) = [] :=
  c6_open_failure_synchronous "empty.mp4" .notOpened
    [envWith [.Play] (effFrameAt 0)] (fun props h => nomatch h)

/-- C9 (counterexample): a cycle in which the control channel turns out
disconnected — here while the worker is paused — exits the loop with an
empty event list: no sleep happens at the end of that cycle, refuting
"sleeps at the end of every cycle, including cycles in which it is
paused". -/
theorem c9_counterexample :
    workerCycle 33 ⟨true, []⟩ ⟨[], false, true, effEnd, true⟩
      = ([], CycleOutcome.stopped) := rfl

theorem decodeStep_cont_sleeps (delay : Nat) (p : Bool) (eff : ReadEffects)
    (sendOk : Bool)
    (h : (decodeStep delay p eff sendOk).2 = StepRes.cont) :
    (decodeStep delay p eff sendOk).1.getLast? = some (.slept delay) := by
  cases p
  · obtain ⟨ro, fe, pm, cv, sz, px⟩ := eff
    rcases ro with _ | b
    · exact nomatch h
    · cases b
      · exact nomatch h
      · cases fe
        · rcases cv with e | u
          · exact nomatch h
          · rcases sz with _ | ⟨w, hh⟩
            · exact nomatch h
            · cases sendOk
              · exact nomatch h
              · rfl
        · exact nomatch h
  · rfl

/-- C9 (amended): the per-cycle sleep duration is computed once at startup
as `(1000.0 / frame_rate) as u64` milliseconds (truncating; fallback 33
when `frame_rate ≤ 0`), and every cycle that continues the loop — paused
cycles included — ends with a sleep of exactly that duration; a cycle on
which the loop exits ends without sleeping (see the counterexample).  The
second conjunct observes the startup-computed duration through the sleep of
a first, paused, command-free cycle of a freshly constructed worker. -/
theorem c9_sleep_at_cycle_end (path_str : String) (props : CapProps)
    (env : CycleEnv) (delay : Nat) (st st2 : WorkerState)
    (henv : env.arrivals = [] ∧ env.connected = true)
    (hc : (workerCycle delay st env).2 = CycleOutcome.next st2) :
    (workerCycle delay st env).1.getLast? = some (.slept delay)
    ∧ eventsOf (VideoReader_new path_str (.opened props) [env])
        = [Event.slept
            (if get_fps props > 0 then f64_as_u64 (1000 / get_fps props)
             else 33)] := by
  constructor
  · rcases hcs : ctrlStep st.is_paused (st.inbox ++ env.arrivals)
        env.connected env.seekOk with ⟨evs, cr⟩
    cases cr with
    | disconnected => simp [workerCycle, hcs] at hc
    | proceed p rest =>
        rcases hds : decodeStep delay p env.readEff env.sendOk with ⟨evs2, r⟩
        cases r with
        | cont =>
            have hl := decodeStep_cont_sleeps delay p env.readEff env.sendOk
              (by rw [hds])
            rw [hds] at hl
            have hne : evs2 ≠ [] := by
              intro hn
              rw [hn] at hl
              exact nomatch hl
            simp only [workerCycle, hcs, hds]
            rw [List.getLast?_append_of_ne_nil _ hne]
            exact hl
        | stop => simp [workerCycle, hcs, hds] at hc
        | panicked m => simp [workerCycle, hcs, hds] at hc
  · obtain ⟨ha, hcon⟩ := henv
    rcases env with ⟨arr, conn, sk, eff, snd⟩
    have ha2 : arr = [] := ha
    have hcon2 : conn = true := hcon
    subst ha2
    subst hcon2
    rfl

/-- C9 (witness): a freshly constructed worker on a 10-fps source spends
its first paused cycle sleeping the startup-computed 100 ms, and a
continuing cycle's trace ends with that sleep. -/
theorem c9_sleep_witness :
    (workerCycle 33 ⟨true, []⟩ ⟨[], true, true, effEnd, true⟩).1.getLast?
        = some (.slept 33)
    ∧ eventsOf (VideoReader_new "v"
        (.opened ⟨some 10, some 640, some 480, some 50⟩)
        [⟨[], true, true, effEnd, true⟩])
        = [Event.slept
            (if get_fps ⟨some 10, some 640, some 480, some 50⟩ > 0
             then f64_as_u64
               (1000 / get_fps ⟨some 10, some 640, some 480, some 50⟩)
             else 33)] :=
  c9_sleep_at_cycle_end "v" ⟨some 10, some 640, some 480, some 50⟩
    ⟨[], true, true, effEnd, true⟩ 33 ⟨true, []⟩ ⟨true, []⟩ ⟨rfl, rfl⟩ rfl
